import Mathlib

/-!
# Verification of the native wrappers: link lists and queries

Shallow embedding of `wrappers/linklist_cs.cpp` and `wrappers/src/query_cs.cpp`.

Every exported wrapper runs its body inside `handle_errors`, which catches the
exceptions the body throws and hands them to the managed caller. A wrapper is
therefore embedded as a function from the state before the call to an outcome
and the state after the call. Values of type `size_t` are natural numbers; the
wrappers only compare them, they do no arithmetic on them.
-/

namespace Realm

/-! ## Outcomes of a wrapper body -/

/-- The exceptions thrown inside the wrappers. -/
inductive NativeException where
  /-- `IndexOutOfRangeException(context, bad_index, count)`. -/
  | IndexOutOfRangeException (context : String) (bad_index count : Nat)
  /-- `std::runtime_error(what)`. -/
  | runtime_error (what : String)
  deriving DecidableEq, Repr

/-- The error taxonomy of the specification. -/
inductive ErrorKind where
  | resolution
  | usage
  | bounds
  | malformed_expression
  deriving DecidableEq, Repr

/-- Kind of error a thrown exception is surfaced as: the bounds exception is a
bounds error, the runtime errors thrown by the comparators are usage errors. -/
def NativeException.kind : NativeException → ErrorKind
  | .IndexOutOfRangeException _ _ _ => .bounds
  | .runtime_error _ => .usage

/-- How the body of a wrapper ends. -/
inductive Outcome (α : Type) where
  /-- The body ran to its end and returned `a`. -/
  | returned (a : α)
  /-- The body threw `e`, which `handle_errors` surfaces to the caller. -/
  | thrown (e : NativeException)
  /-- The body reached `REALM_UNREACHABLE()`, which terminates the process. -/
  | terminated
  /-- The body invoked a storage primitive outside its contract: no behaviour
  is defined. -/
  | undefined
  deriving DecidableEq, Repr

/-- The call failed: an exception reached the caller. -/
def Outcome.fails {α : Type} (o : Outcome α) : Prop := ∃ e, o = .thrown e

/-- The call succeeded: the body returned. -/
def Outcome.succeeds {α : Type} (o : Outcome α) : Prop := ∃ a, o = .returned a

/-- The exception surfaced to the caller, when there is one. -/
def Outcome.error? {α : Type} : Outcome α → Option NativeException
  | .thrown e => some e
  | _ => none

/-- The call failed with an error of kind `k`. -/
def Outcome.failsWith {α : Type} (o : Outcome α) (k : ErrorKind) : Prop :=
  ∃ e, o = .thrown e ∧ e.kind = k

/-! ## Link lists (`linklist_cs.cpp`) -/

/-- Modelled from the spec: the storage engine's `LinkView` (type and methods
are declared in the engine, not in the wrappers) is an ordered sequence of row
references with contiguous zero-based positions. -/
structure LinkView where
  rows : List Nat
  deriving DecidableEq, Repr

/-- Modelled from the spec: `LinkView::size`, the current element count. -/
def LinkView.size (lv : LinkView) : Nat := lv.rows.length

/-- Modelled from the spec: `LinkView::add` adds a reference at the end. -/
def LinkView.add (lv : LinkView) (row_ndx : Nat) : LinkView :=
  ⟨lv.rows ++ [row_ndx]⟩

/-- Modelled from the spec: `LinkView::insert` inserts before position
`link_ndx`; a position past the end is outside the contract (`none`). -/
def LinkView.insert (lv : LinkView) (link_ndx row_ndx : Nat) : Option LinkView :=
  if link_ndx ≤ lv.rows.length then
    some ⟨lv.rows.take link_ndx ++ row_ndx :: lv.rows.drop link_ndx⟩
  else none

/-- Modelled from the spec: `LinkView::get` reads the reference at `link_ndx`;
a position at or past the end is outside the contract (`none`). -/
def LinkView.get (lv : LinkView) (link_ndx : Nat) : Option Nat :=
  lv.rows.get? link_ndx

/-- The value `realm::not_found`, the largest `size_t`. -/
def not_found : Nat := 2 ^ 64 - 1

/-- Forward scan of `rows` for `row_ndx`; `pos` is the position of the head of
`rows` in the whole list, positions before `start` are skipped. -/
def LinkView.findFrom (row_ndx start : Nat) : Nat → List Nat → Nat
  | _, [] => not_found
  | pos, r :: rest =>
    if start ≤ pos ∧ r = row_ndx then pos
    else LinkView.findFrom row_ndx start (pos + 1) rest

/-- Modelled from the spec: `LinkView::find` scans forward from `start` to the
end and returns the position of the first occurrence of `row_ndx`, or
`not_found`. -/
def LinkView.find (lv : LinkView) (row_ndx start : Nat) : Nat :=
  LinkView.findFrom row_ndx start 0 lv.rows

/-- Modelled from the spec: `LinkListFriend::do_remove` removes the entry at
`link_ndx` and shifts the later entries down by one; a position at or past the
end is outside the contract (`none`). -/
def LinkView.do_remove (lv : LinkView) (link_ndx : Nat) : Option LinkView :=
  if link_ndx < lv.rows.length then some ⟨lv.rows.eraseIdx link_ndx⟩ else none

/-- Modelled from the spec: `LinkView::clear` removes all entries. -/
def LinkView.clear (_lv : LinkView) : LinkView := ⟨[]⟩

/-- A `Row` accessor built from the row expression `LinkView::get` returns: an
independent copy naming the target row. -/
structure Row where
  row_ndx : Nat
  deriving DecidableEq, Repr

/-- The storage primitives a wrapper can invoke, with their arguments. -/
inductive StorageCall where
  | size
  | add (row_ndx : Nat)
  | insert (link_ndx row_ndx : Nat)
  | get (link_ndx : Nat)
  | find (row_ndx start : Nat)
  | do_remove (link_ndx : Nat)
  | clear
  deriving DecidableEq, Repr

/-- The position argument of a storage primitive, if it takes one. -/
def StorageCall.position? : StorageCall → Option Nat
  | .insert link_ndx _ => some link_ndx
  | .get link_ndx => some link_ndx
  | .find _ start => some start
  | .do_remove link_ndx => some link_ndx
  | _ => none

/-- One invocation of a storage primitive: the list it was invoked on and the
call made. -/
structure Invocation where
  view : LinkView
  call : StorageCall
  deriving DecidableEq, Repr

/-- The invocation passes no position, or a position inside the list it is
invoked on. -/
def Invocation.inList (inv : Invocation) : Prop :=
  match inv.call.position? with
  | none => True
  | some p => p < inv.view.size

instance (inv : Invocation) : Decidable inv.inList := by
  unfold Invocation.inList
  split <;> infer_instance

/-- Result of a link-list wrapper: how the body ended, the list afterwards and
the storage primitives invoked, in order. -/
structure LinkRun (α : Type) where
  outcome : Outcome α
  view : LinkView
  calls : List Invocation

/-- Embedding of `linklist_add`. -/
def linklist_add (linklist_ptr : LinkView) (row_ndx : Nat) : LinkRun Unit :=
  ⟨.returned (), linklist_ptr.add row_ndx, [⟨linklist_ptr, .add row_ndx⟩]⟩

/-- Embedding of `linklist_insert`. -/
def linklist_insert (linklist_ptr : LinkView) (link_ndx row_ndx : Nat) : LinkRun Unit :=
  let count := linklist_ptr.size
  if link_ndx ≥ count then
    ⟨.thrown (.IndexOutOfRangeException "Insert into RealmList" link_ndx count),
      linklist_ptr, [⟨linklist_ptr, .size⟩]⟩
  else
    match linklist_ptr.insert link_ndx row_ndx with
    | some lv => ⟨.returned (), lv, [⟨linklist_ptr, .size⟩, ⟨linklist_ptr, .insert link_ndx row_ndx⟩]⟩
    | none => ⟨.undefined, linklist_ptr, [⟨linklist_ptr, .size⟩, ⟨linklist_ptr, .insert link_ndx row_ndx⟩]⟩

/-- Embedding of `linklist_get`. -/
def linklist_get (linklist_ptr : LinkView) (link_ndx : Nat) : LinkRun Row :=
  let count := linklist_ptr.size
  if link_ndx ≥ count then
    ⟨.thrown (.IndexOutOfRangeException "Get from RealmList" link_ndx count),
      linklist_ptr, [⟨linklist_ptr, .size⟩]⟩
  else
    match linklist_ptr.get link_ndx with
    | some rowExpr => ⟨.returned ⟨rowExpr⟩, linklist_ptr, [⟨linklist_ptr, .size⟩, ⟨linklist_ptr, .get link_ndx⟩]⟩
    | none => ⟨.undefined, linklist_ptr, [⟨linklist_ptr, .size⟩, ⟨linklist_ptr, .get link_ndx⟩]⟩

/-- Embedding of `linklist_find`. -/
def linklist_find (linklist_ptr : LinkView) (row_ndx start_from : Nat) : LinkRun Nat :=
  ⟨.returned (linklist_ptr.find row_ndx start_from), linklist_ptr,
    [⟨linklist_ptr, .find row_ndx start_from⟩]⟩

/-- Embedding of `linklist_erase`. -/
def linklist_erase (linklist_ptr : LinkView) (link_ndx : Nat) : LinkRun Unit :=
  let count := linklist_ptr.size
  if link_ndx ≥ count then
    ⟨.thrown (.IndexOutOfRangeException "Erase item in RealmList" link_ndx count),
      linklist_ptr, [⟨linklist_ptr, .size⟩]⟩
  else
    match linklist_ptr.do_remove link_ndx with
    | some lv => ⟨.returned (), lv, [⟨linklist_ptr, .size⟩, ⟨linklist_ptr, .do_remove link_ndx⟩]⟩
    | none => ⟨.undefined, linklist_ptr, [⟨linklist_ptr, .size⟩, ⟨linklist_ptr, .do_remove link_ndx⟩]⟩

/-- Embedding of `linklist_clear`. -/
def linklist_clear (linklist_ptr : LinkView) : LinkRun Unit :=
  ⟨.returned (), linklist_ptr.clear, [⟨linklist_ptr, .clear⟩]⟩

/-- Embedding of `linklist_size`. -/
def linklist_size (linklist_ptr : LinkView) : LinkRun Nat :=
  ⟨.returned linklist_ptr.size, linklist_ptr, [⟨linklist_ptr, .size⟩]⟩

/-! ## Queries (`query_cs.cpp`) -/

/-- A column key of the storage engine. -/
structure ColKey where
  value : Int
  deriving DecidableEq, Repr

/-- The storage engine's column types. -/
inductive DataType where
  | type_Int
  | type_Bool
  | type_String
  | type_Binary
  | type_Timestamp
  | type_Float
  | type_Double
  | type_Decimal
  | type_Link
  | type_LinkList
  | type_ObjectId
  deriving DecidableEq, Repr

/-- The table a query runs on: its name and the type of each of its columns. -/
structure Table where
  get_name : String
  get_column_type : ColKey → DataType

/-- A persisted property of an object schema. -/
structure Property where
  column_key : ColKey
  deriving DecidableEq, Repr

/-- An object schema: the object type's name and its persisted properties. -/
structure ObjectSchema where
  name : String
  persisted_properties : List Property
  deriving DecidableEq, Repr

/-- The realm a query belongs to, with its schema. `read_outside` is what the
unchecked read of the persisted properties yields for a property index that
does not resolve: whatever column key the memory read there holds. -/
structure SharedRealm where
  schema : List ObjectSchema
  read_outside : Nat → ColKey

/-- The lookup `Schema::find`: the object schema of that name, if there is one
(`none` stands for the end iterator). -/
def SharedRealm.find (realm : SharedRealm) (name : String) : Option ObjectSchema :=
  realm.schema.find? (fun object_schema => object_schema.name == name)

/-- Modelled from the spec: `ObjectStore::object_type_for_table_name` is
declared in the object store, not in the wrappers; it names the object type
backing a table. The object store calls the table of an object type `class_`
followed by the name of the type, which is undone here; a table not so named
backs no object type. -/
def object_type_for_table_name (table_name : String) : String :=
  if "class_".data.isPrefixOf table_name.data then ⟨table_name.data.drop 6⟩ else ""

/-- A timestamp of the storage engine, kept as the ticks it was made from. -/
structure Timestamp where
  ticks : Int
  deriving DecidableEq, Repr

/-- Modelled from the spec: `from_ticks` of `timestamp_helpers.hpp` converts
integer ticks to a timestamp. -/
def from_ticks (ticks : Int) : Timestamp := ⟨ticks⟩

/-- The 128-bit decimal built from its bits. -/
structure Decimal128 where
  bits : Nat
  deriving DecidableEq, Repr

/-- An object identifier built from its bytes. -/
structure ObjectId where
  bytes : List Nat
  deriving DecidableEq, Repr

/-- The type tag `realm::PropertyType`, an unsigned char: a base kind combined
with flags by bitwise or. -/
abbrev PropertyType := Nat

namespace PropertyType

/-- Modelled from the spec: the enumerators of `realm::PropertyType` are
declared in the object store (`property.hpp`), not in the wrappers: the base
kinds are small distinct numbers and the flags are single bits above them. The
wrappers only test a tag for equality with the case labels of a switch. -/
def Int : PropertyType := 0
def Bool : PropertyType := 1
def String : PropertyType := 2
def Data : PropertyType := 3
def Date : PropertyType := 4
def Float : PropertyType := 5
def Double : PropertyType := 6
def Object : PropertyType := 7
def LinkingObjects : PropertyType := 8
def ObjectId : PropertyType := 10
def Decimal : PropertyType := 11
def Nullable : PropertyType := 64
def Array : PropertyType := 128

end PropertyType

/-- The payload union of a `PrimitiveValue`, one field per member read by the
wrappers; floating-point members are kept as their bit patterns. -/
structure PrimitiveValue.Payload where
  bool_value : Bool
  int_value : Int
  float_value : Nat
  double_value : Nat
  decimal_bits : Nat
  object_id_bytes : List Nat
  deriving DecidableEq, Repr

/-- Modelled from the spec: `PrimitiveValue` of `marshalling.hpp`, the typed
value carrier: a type tag, a presence flag and a payload. -/
structure PrimitiveValue where
  type : PropertyType
  has_value : Bool
  value : PrimitiveValue.Payload
  deriving DecidableEq, Repr

/-- Modelled from the spec: `to_object_id` of `marshalling.hpp` builds the
object identifier carried by a primitive value. -/
def to_object_id (primitive : PrimitiveValue) : ObjectId :=
  ⟨primitive.value.object_id_bytes⟩

/-- The value a column is compared against. -/
inductive Operand where
  | bool (b : Bool)
  | int (i : Int)
  | float (bits : Nat)
  | double (bits : Nat)
  | timestamp (t : Timestamp)
  | decimal (d : Decimal128)
  | object_id (o : ObjectId)
  | binary (data : List Nat)
  | null
  deriving DecidableEq, Repr

/-- The comparison methods of the storage engine's `Query`. -/
inductive Comparison where
  | equal
  | not_equal
  | less
  | less_equal
  | greater
  | greater_equal
  | contains
  | begins_with
  | ends_with
  | like
  deriving DecidableEq, Repr

/-- The link expressions `column<Link>(col_key).is_null()` and
`column<Link>(col_key).is_not_null()`. -/
inductive LinkExpression where
  | is_null (col_key : ColKey)
  | is_not_null (col_key : ColKey)
  deriving DecidableEq, Repr

/-- One entry of the predicate a query accumulates, in call order. -/
inductive Leaf where
  /-- A comparison `query.op(col_key, value)`. -/
  | compare (op : Comparison) (col_key : ColKey) (value : Operand)
  /-- A text comparison `query.op(col_key, str, case_sensitive)`. -/
  | compare_string (op : Comparison) (col_key : ColKey) (str : List Nat) (case_sensitive : Bool)
  /-- A reference comparison `query.links_to(col_key, obj_key)`. -/
  | links_to (col_key : ColKey) (obj_key : Int)
  /-- A sub-expression AND-combined by `query.and_query(expression)`. -/
  | and_query (expression : LinkExpression)
  deriving DecidableEq, Repr

/-- Modelled from the spec: the storage engine's `Query`, the table it runs on
and the predicate accumulated so far, successive leaves being AND-combined. -/
structure Query where
  get_table : Table
  predicate : List Leaf

/-- The predicate with one more leaf. -/
def Query.append (query : Query) (leaf : Leaf) : Query :=
  ⟨query.get_table, query.predicate ++ [leaf]⟩

/-- Result of a query wrapper: how the body ended and the query afterwards. -/
structure QueryRun where
  outcome : Outcome Unit
  query : Query

/-- Embedding of `get_key_for_prop`: the object schema is looked up by the
object type of the table and its persisted properties are indexed unchecked.
When the lookup yields the end iterator or the index is outside the vector,
the read is not stopped: it yields the key `realm.read_outside` holds for that
index and the caller goes on with it. -/
def get_key_for_prop (query : Query) (realm : SharedRealm) (property_index : Nat) : ColKey :=
  match realm.find (object_type_for_table_name query.get_table.get_name) with
  | none => realm.read_outside property_index
  | some object_schema =>
    match object_schema.persisted_properties.get? property_index with
    | none => realm.read_outside property_index
    | some property => property.column_key

/-- Modelled from the spec: `Utf16StringAccessor` of `marshalling.hpp` converts
the encoding of the text it is given; the text handed to the storage engine is
kept as the UTF-16 code units it was built from. -/
def Utf16StringAccessor (value : List Nat) : List Nat := value

/-- Common shape of the wrappers that resolve the column and then append one
leaf built from it. -/
def with_key_for_prop (query : Query) (realm : SharedRealm) (property_index : Nat)
    (leaf : ColKey → Leaf) : QueryRun :=
  ⟨.returned (), query.append (leaf (get_key_for_prop query realm property_index))⟩

/-- Embedding of `query_string_contains`. -/
def query_string_contains (query : Query) (realm : SharedRealm) (property_index : Nat)
    (value : List Nat) (case_sensitive : Bool) : QueryRun :=
  let str := Utf16StringAccessor value
  with_key_for_prop query realm property_index
    (fun col_key => .compare_string .contains col_key str case_sensitive)

/-- Embedding of `query_string_starts_with`. -/
def query_string_starts_with (query : Query) (realm : SharedRealm) (property_index : Nat)
    (value : List Nat) (case_sensitive : Bool) : QueryRun :=
  let str := Utf16StringAccessor value
  with_key_for_prop query realm property_index
    (fun col_key => .compare_string .begins_with col_key str case_sensitive)

/-- Embedding of `query_string_ends_with`. -/
def query_string_ends_with (query : Query) (realm : SharedRealm) (property_index : Nat)
    (value : List Nat) (case_sensitive : Bool) : QueryRun :=
  let str := Utf16StringAccessor value
  with_key_for_prop query realm property_index
    (fun col_key => .compare_string .ends_with col_key str case_sensitive)

/-- Embedding of `query_string_equal`. -/
def query_string_equal (query : Query) (realm : SharedRealm) (property_index : Nat)
    (value : List Nat) (case_sensitive : Bool) : QueryRun :=
  let str := Utf16StringAccessor value
  with_key_for_prop query realm property_index
    (fun col_key => .compare_string .equal col_key str case_sensitive)

/-- Embedding of `query_string_not_equal`. -/
def query_string_not_equal (query : Query) (realm : SharedRealm) (property_index : Nat)
    (value : List Nat) (case_sensitive : Bool) : QueryRun :=
  let str := Utf16StringAccessor value
  with_key_for_prop query realm property_index
    (fun col_key => .compare_string .not_equal col_key str case_sensitive)

/-- Embedding of `query_string_like`. -/
def query_string_like (query : Query) (realm : SharedRealm) (property_index : Nat)
    (value : List Nat) (case_sensitive : Bool) : QueryRun :=
  let str := Utf16StringAccessor value
  with_key_for_prop query realm property_index
    (fun col_key => .compare_string .like col_key str case_sensitive)

/-- Embedding of `query_primitive_equal`. -/
def query_primitive_equal (query : Query) (realm : SharedRealm) (property_index : Nat)
    (primitive : PrimitiveValue) : QueryRun :=
  if !primitive.has_value then
    ⟨.thrown (.runtime_error
      "Comparing null values should be done via query_null_equal. If you get this error, please report it to help@realm.io."), query⟩
  else
    let col_key := get_key_for_prop query realm property_index
    if primitive.type = PropertyType.Bool
        ∨ primitive.type = PropertyType.Bool ||| PropertyType.Nullable then
      ⟨.returned (), query.append (.compare .equal col_key (.bool primitive.value.bool_value))⟩
    else if primitive.type = PropertyType.Int
        ∨ primitive.type = PropertyType.Int ||| PropertyType.Nullable then
      ⟨.returned (), query.append (.compare .equal col_key (.int primitive.value.int_value))⟩
    else if primitive.type = PropertyType.Float
        ∨ primitive.type = PropertyType.Float ||| PropertyType.Nullable then
      ⟨.returned (), query.append (.compare .equal col_key (.float primitive.value.float_value))⟩
    else if primitive.type = PropertyType.Double
        ∨ primitive.type = PropertyType.Double ||| PropertyType.Nullable then
      ⟨.returned (), query.append (.compare .equal col_key (.double primitive.value.double_value))⟩
    else if primitive.type = PropertyType.Date
        ∨ primitive.type = PropertyType.Date ||| PropertyType.Nullable then
      ⟨.returned (),
        query.append (.compare .equal col_key (.timestamp (from_ticks primitive.value.int_value)))⟩
    else if primitive.type = PropertyType.Decimal
        ∨ primitive.type = PropertyType.Decimal ||| PropertyType.Nullable then
      ⟨.returned (),
        query.append (.compare .equal col_key (.decimal ⟨primitive.value.decimal_bits⟩))⟩
    else if primitive.type = PropertyType.ObjectId
        ∨ primitive.type = PropertyType.ObjectId ||| PropertyType.Nullable then
      ⟨.returned (), query.append (.compare .equal col_key (.object_id (to_object_id primitive)))⟩
    else
      ⟨.terminated, query⟩

/-- Embedding of `query_primitive_not_equal`. -/
def query_primitive_not_equal (query : Query) (realm : SharedRealm) (property_index : Nat)
    (primitive : PrimitiveValue) : QueryRun :=
  if !primitive.has_value then
    ⟨.thrown (.runtime_error
      "Comparing null values should be done via query_null_not_equal. If you get this error, please report it to help@realm.io."), query⟩
  else
    let col_key := get_key_for_prop query realm property_index
    if primitive.type = PropertyType.Bool
        ∨ primitive.type = PropertyType.Bool ||| PropertyType.Nullable then
      ⟨.returned (), query.append (.compare .not_equal col_key (.bool primitive.value.bool_value))⟩
    else if primitive.type = PropertyType.Int
        ∨ primitive.type = PropertyType.Int ||| PropertyType.Nullable then
      ⟨.returned (), query.append (.compare .not_equal col_key (.int primitive.value.int_value))⟩
    else if primitive.type = PropertyType.Float
        ∨ primitive.type = PropertyType.Float ||| PropertyType.Nullable then
      ⟨.returned (), query.append (.compare .not_equal col_key (.float primitive.value.float_value))⟩
    else if primitive.type = PropertyType.Double
        ∨ primitive.type = PropertyType.Double ||| PropertyType.Nullable then
      ⟨.returned (), query.append (.compare .not_equal col_key (.double primitive.value.double_value))⟩
    else if primitive.type = PropertyType.Date
        ∨ primitive.type = PropertyType.Date ||| PropertyType.Nullable then
      ⟨.returned (),
        query.append (.compare .not_equal col_key (.timestamp (from_ticks primitive.value.int_value)))⟩
    else if primitive.type = PropertyType.Decimal
        ∨ primitive.type = PropertyType.Decimal ||| PropertyType.Nullable then
      ⟨.returned (),
        query.append (.compare .not_equal col_key (.decimal ⟨primitive.value.decimal_bits⟩))⟩
    else if primitive.type = PropertyType.ObjectId
        ∨ primitive.type = PropertyType.ObjectId ||| PropertyType.Nullable then
      ⟨.returned (), query.append (.compare .not_equal col_key (.object_id (to_object_id primitive)))⟩
    else
      ⟨.terminated, query⟩

/-- Embedding of `query_primitive_less`. -/
def query_primitive_less (query : Query) (realm : SharedRealm) (property_index : Nat)
    (primitive : PrimitiveValue) : QueryRun :=
  if !primitive.has_value then
    ⟨.thrown (.runtime_error
      "Using primitive_less with null is not supported. If you get this error, please report it to help@realm.io."), query⟩
  else
    let col_key := get_key_for_prop query realm property_index
    if primitive.type = PropertyType.Bool
        ∨ primitive.type = PropertyType.Bool ||| PropertyType.Nullable then
      ⟨.thrown (.runtime_error
        "Using primitive_less with bool value is not supported. If you get this error, please report it to help@realm.io"), query⟩
    else if primitive.type = PropertyType.Int
        ∨ primitive.type = PropertyType.Int ||| PropertyType.Nullable then
      ⟨.returned (), query.append (.compare .less col_key (.int primitive.value.int_value))⟩
    else if primitive.type = PropertyType.Float
        ∨ primitive.type = PropertyType.Float ||| PropertyType.Nullable then
      ⟨.returned (), query.append (.compare .less col_key (.float primitive.value.float_value))⟩
    else if primitive.type = PropertyType.Double
        ∨ primitive.type = PropertyType.Double ||| PropertyType.Nullable then
      ⟨.returned (), query.append (.compare .less col_key (.double primitive.value.double_value))⟩
    else if primitive.type = PropertyType.Date
        ∨ primitive.type = PropertyType.Date ||| PropertyType.Nullable then
      ⟨.returned (),
        query.append (.compare .less col_key (.timestamp (from_ticks primitive.value.int_value)))⟩
    else if primitive.type = PropertyType.Decimal
        ∨ primitive.type = PropertyType.Decimal ||| PropertyType.Nullable then
      ⟨.returned (),
        query.append (.compare .less col_key (.decimal ⟨primitive.value.decimal_bits⟩))⟩
    else if primitive.type = PropertyType.ObjectId
        ∨ primitive.type = PropertyType.ObjectId ||| PropertyType.Nullable then
      ⟨.returned (), query.append (.compare .less col_key (.object_id (to_object_id primitive)))⟩
    else
      ⟨.terminated, query⟩

/-- Embedding of `query_primitive_less_equal`. -/
def query_primitive_less_equal (query : Query) (realm : SharedRealm) (property_index : Nat)
    (primitive : PrimitiveValue) : QueryRun :=
  if !primitive.has_value then
    ⟨.thrown (.runtime_error
      "Using primitive_less_equal with null is not supported. If you get this error, please report it to help@realm.io."), query⟩
  else
    let col_key := get_key_for_prop query realm property_index
    if primitive.type = PropertyType.Bool
        ∨ primitive.type = PropertyType.Bool ||| PropertyType.Nullable then
      ⟨.thrown (.runtime_error
        "Using primitive_less_equal with bool value is not supported. If you get this error, please report it to help@realm.io"), query⟩
    else if primitive.type = PropertyType.Int
        ∨ primitive.type = PropertyType.Int ||| PropertyType.Nullable then
      ⟨.returned (), query.append (.compare .less_equal col_key (.int primitive.value.int_value))⟩
    else if primitive.type = PropertyType.Float
        ∨ primitive.type = PropertyType.Float ||| PropertyType.Nullable then
      ⟨.returned (), query.append (.compare .less_equal col_key (.float primitive.value.float_value))⟩
    else if primitive.type = PropertyType.Double
        ∨ primitive.type = PropertyType.Double ||| PropertyType.Nullable then
      ⟨.returned (), query.append (.compare .less_equal col_key (.double primitive.value.double_value))⟩
    else if primitive.type = PropertyType.Date
        ∨ primitive.type = PropertyType.Date ||| PropertyType.Nullable then
      ⟨.returned (),
        query.append (.compare .less_equal col_key (.timestamp (from_ticks primitive.value.int_value)))⟩
    else if primitive.type = PropertyType.Decimal
        ∨ primitive.type = PropertyType.Decimal ||| PropertyType.Nullable then
      ⟨.returned (),
        query.append (.compare .less_equal col_key (.decimal ⟨primitive.value.decimal_bits⟩))⟩
    else if primitive.type = PropertyType.ObjectId
        ∨ primitive.type = PropertyType.ObjectId ||| PropertyType.Nullable then
      ⟨.returned (), query.append (.compare .less_equal col_key (.object_id (to_object_id primitive)))⟩
    else
      ⟨.terminated, query⟩

/-- Embedding of `query_primitive_greater`. -/
def query_primitive_greater (query : Query) (realm : SharedRealm) (property_index : Nat)
    (primitive : PrimitiveValue) : QueryRun :=
  if !primitive.has_value then
    ⟨.thrown (.runtime_error
      "Using primitive_greater with null is not supported. If you get this error, please report it to help@realm.io."), query⟩
  else
    let col_key := get_key_for_prop query realm property_index
    if primitive.type = PropertyType.Bool
        ∨ primitive.type = PropertyType.Bool ||| PropertyType.Nullable then
      ⟨.thrown (.runtime_error
        "Using primitive_greater with bool value is not supported. If you get this error, please report it to help@realm.io"), query⟩
    else if primitive.type = PropertyType.Int
        ∨ primitive.type = PropertyType.Int ||| PropertyType.Nullable then
      ⟨.returned (), query.append (.compare .greater col_key (.int primitive.value.int_value))⟩
    else if primitive.type = PropertyType.Float
        ∨ primitive.type = PropertyType.Float ||| PropertyType.Nullable then
      ⟨.returned (), query.append (.compare .greater col_key (.float primitive.value.float_value))⟩
    else if primitive.type = PropertyType.Double
        ∨ primitive.type = PropertyType.Double ||| PropertyType.Nullable then
      ⟨.returned (), query.append (.compare .greater col_key (.double primitive.value.double_value))⟩
    else if primitive.type = PropertyType.Date
        ∨ primitive.type = PropertyType.Date ||| PropertyType.Nullable then
      ⟨.returned (),
        query.append (.compare .greater col_key (.timestamp (from_ticks primitive.value.int_value)))⟩
    else if primitive.type = PropertyType.Decimal
        ∨ primitive.type = PropertyType.Decimal ||| PropertyType.Nullable then
      ⟨.returned (),
        query.append (.compare .greater col_key (.decimal ⟨primitive.value.decimal_bits⟩))⟩
    else if primitive.type = PropertyType.ObjectId
        ∨ primitive.type = PropertyType.ObjectId ||| PropertyType.Nullable then
      ⟨.returned (), query.append (.compare .greater col_key (.object_id (to_object_id primitive)))⟩
    else
      ⟨.terminated, query⟩

/-- Embedding of `query_primitive_greater_equal`. -/
def query_primitive_greater_equal (query : Query) (realm : SharedRealm) (property_index : Nat)
    (primitive : PrimitiveValue) : QueryRun :=
  if !primitive.has_value then
    ⟨.thrown (.runtime_error
      "Using primitive_greater_equal with null is not supported. If you get this error, please report it to help@realm.io."), query⟩
  else
    let col_key := get_key_for_prop query realm property_index
    if primitive.type = PropertyType.Bool
        ∨ primitive.type = PropertyType.Bool ||| PropertyType.Nullable then
      ⟨.thrown (.runtime_error
        "Using primitive_greater_equal with bool value is not supported. If you get this error, please report it to help@realm.io"), query⟩
    else if primitive.type = PropertyType.Int
        ∨ primitive.type = PropertyType.Int ||| PropertyType.Nullable then
      ⟨.returned (), query.append (.compare .greater_equal col_key (.int primitive.value.int_value))⟩
    else if primitive.type = PropertyType.Float
        ∨ primitive.type = PropertyType.Float ||| PropertyType.Nullable then
      ⟨.returned (), query.append (.compare .greater_equal col_key (.float primitive.value.float_value))⟩
    else if primitive.type = PropertyType.Double
        ∨ primitive.type = PropertyType.Double ||| PropertyType.Nullable then
      ⟨.returned (), query.append (.compare .greater_equal col_key (.double primitive.value.double_value))⟩
    else if primitive.type = PropertyType.Date
        ∨ primitive.type = PropertyType.Date ||| PropertyType.Nullable then
      ⟨.returned (),
        query.append (.compare .greater_equal col_key (.timestamp (from_ticks primitive.value.int_value)))⟩
    else if primitive.type = PropertyType.Decimal
        ∨ primitive.type = PropertyType.Decimal ||| PropertyType.Nullable then
      ⟨.returned (),
        query.append (.compare .greater_equal col_key (.decimal ⟨primitive.value.decimal_bits⟩))⟩
    else if primitive.type = PropertyType.ObjectId
        ∨ primitive.type = PropertyType.ObjectId ||| PropertyType.Nullable then
      ⟨.returned (), query.append (.compare .greater_equal col_key (.object_id (to_object_id primitive)))⟩
    else
      ⟨.terminated, query⟩

/-- Embedding of `query_binary_equal`. -/
def query_binary_equal (query : Query) (realm : SharedRealm) (property_index : Nat)
    (buffer : List Nat) : QueryRun :=
  with_key_for_prop query realm property_index
    (fun col_key => .compare .equal col_key (.binary buffer))

/-- Embedding of `query_binary_not_equal`. -/
def query_binary_not_equal (query : Query) (realm : SharedRealm) (property_index : Nat)
    (buffer : List Nat) : QueryRun :=
  with_key_for_prop query realm property_index
    (fun col_key => .compare .not_equal col_key (.binary buffer))

/-- Embedding of `query_object_equal`; `object` is the key of the object the
accessor names. -/
def query_object_equal (query : Query) (realm : SharedRealm) (property_index : Nat)
    (object : Int) : QueryRun :=
  with_key_for_prop query realm property_index
    (fun col_key => .links_to col_key object)

/-- Embedding of `query_null_equal`. -/
def query_null_equal (query : Query) (realm : SharedRealm) (property_index : Nat) : QueryRun :=
  let col_key := get_key_for_prop query realm property_index
  if query.get_table.get_column_type col_key = DataType.type_Link then
    ⟨.returned (), query.append (.and_query (.is_null col_key))⟩
  else
    ⟨.returned (), query.append (.compare .equal col_key .null)⟩

/-- Embedding of `query_null_not_equal`. -/
def query_null_not_equal (query : Query) (realm : SharedRealm) (property_index : Nat) : QueryRun :=
  let col_key := get_key_for_prop query realm property_index
  if query.get_table.get_column_type col_key = DataType.type_Link then
    ⟨.returned (), query.append (.and_query (.is_not_null col_key))⟩
  else
    ⟨.returned (), query.append (.compare .not_equal col_key .null)⟩

/-- The comparison operators that take a property index, with their other
arguments. -/
inductive PropertyOperator where
  | string_contains (value : List Nat) (case_sensitive : Bool)
  | string_starts_with (value : List Nat) (case_sensitive : Bool)
  | string_ends_with (value : List Nat) (case_sensitive : Bool)
  | string_equal (value : List Nat) (case_sensitive : Bool)
  | string_not_equal (value : List Nat) (case_sensitive : Bool)
  | string_like (value : List Nat) (case_sensitive : Bool)
  | primitive_equal (primitive : PrimitiveValue)
  | primitive_not_equal (primitive : PrimitiveValue)
  | primitive_less (primitive : PrimitiveValue)
  | primitive_less_equal (primitive : PrimitiveValue)
  | primitive_greater (primitive : PrimitiveValue)
  | primitive_greater_equal (primitive : PrimitiveValue)
  | binary_equal (buffer : List Nat)
  | binary_not_equal (buffer : List Nat)
  | object_equal (object : Int)
  | null_equal
  | null_not_equal
  deriving DecidableEq, Repr

/-- The wrapper each operator names, applied to its arguments. -/
def PropertyOperator.call (op : PropertyOperator) (query : Query) (realm : SharedRealm)
    (property_index : Nat) : QueryRun :=
  match op with
  | .string_contains v cs => query_string_contains query realm property_index v cs
  | .string_starts_with v cs => query_string_starts_with query realm property_index v cs
  | .string_ends_with v cs => query_string_ends_with query realm property_index v cs
  | .string_equal v cs => query_string_equal query realm property_index v cs
  | .string_not_equal v cs => query_string_not_equal query realm property_index v cs
  | .string_like v cs => query_string_like query realm property_index v cs
  | .primitive_equal p => query_primitive_equal query realm property_index p
  | .primitive_not_equal p => query_primitive_not_equal query realm property_index p
  | .primitive_less p => query_primitive_less query realm property_index p
  | .primitive_less_equal p => query_primitive_less_equal query realm property_index p
  | .primitive_greater p => query_primitive_greater query realm property_index p
  | .primitive_greater_equal p => query_primitive_greater_equal query realm property_index p
  | .binary_equal b => query_binary_equal query realm property_index b
  | .binary_not_equal b => query_binary_not_equal query realm property_index b
  | .object_equal o => query_object_equal query realm property_index o
  | .null_equal => query_null_equal query realm property_index
  | .null_not_equal => query_null_not_equal query realm property_index

/-- The column a leaf is on. -/
def Leaf.col_key : Leaf → ColKey
  | .compare _ col_key _ => col_key
  | .compare_string _ col_key _ _ => col_key
  | .links_to col_key _ => col_key
  | .and_query (.is_null col_key) => col_key
  | .and_query (.is_not_null col_key) => col_key

/-- The tags the primitive comparators have a case for: the seven supported
kinds, each with or without the nullable flag. -/
def supported_types : List PropertyType :=
  [PropertyType.Bool, PropertyType.Bool ||| PropertyType.Nullable,
   PropertyType.Int, PropertyType.Int ||| PropertyType.Nullable,
   PropertyType.Float, PropertyType.Float ||| PropertyType.Nullable,
   PropertyType.Double, PropertyType.Double ||| PropertyType.Nullable,
   PropertyType.Date, PropertyType.Date ||| PropertyType.Nullable,
   PropertyType.Decimal, PropertyType.Decimal ||| PropertyType.Nullable,
   PropertyType.ObjectId, PropertyType.ObjectId ||| PropertyType.Nullable]

/-- The seven kinds of value the primitive comparators support. -/
inductive PrimitiveKind where
  | bool
  | int
  | float
  | double
  | date
  | decimal
  | object_id
  deriving DecidableEq, Repr

/-- The tag of a supported kind, without flags. -/
def PrimitiveKind.tag : PrimitiveKind → PropertyType
  | .bool => PropertyType.Bool
  | .int => PropertyType.Int
  | .float => PropertyType.Float
  | .double => PropertyType.Double
  | .date => PropertyType.Date
  | .decimal => PropertyType.Decimal
  | .object_id => PropertyType.ObjectId

/-- The operand the specification pairs with each kind: the payload of the
matching kind, the integer ticks converted to a timestamp for a date and the
128-bit payload for a decimal. -/
def PrimitiveKind.payload (primitive : PrimitiveValue) : PrimitiveKind → Operand
  | .bool => .bool primitive.value.bool_value
  | .int => .int primitive.value.int_value
  | .float => .float primitive.value.float_value
  | .double => .double primitive.value.double_value
  | .date => .timestamp (from_ticks primitive.value.int_value)
  | .decimal => .decimal ⟨primitive.value.decimal_bits⟩
  | .object_id => .object_id (to_object_id primitive)

/-- The call returned and appended exactly the leaf `leaf` to the predicate of
`query`, on the same table. -/
def QueryRun.appends (run : QueryRun) (query : Query) (leaf : Leaf) : Prop :=
  run.outcome = .returned () ∧ run.query.predicate = query.predicate ++ [leaf] ∧
    run.query.get_table.get_name = query.get_table.get_name

/-! ### A sample realm -/

/-- A table `class_Person` whose column 7 is a link and whose other columns
are integers. -/
def sampleTable : Table :=
  ⟨"class_Person", fun col_key => if col_key.value = 7 then .type_Link else .type_Int⟩

/-- A realm whose only object type is `Person`, with two persisted properties
stored in columns 3 and 7; an unchecked read at an index that does not resolve
yields the key 1000 plus the index. -/
def sampleRealm : SharedRealm :=
  ⟨[⟨"Person", [⟨⟨3⟩⟩, ⟨⟨7⟩⟩]⟩], fun property_index => ⟨1000 + property_index⟩⟩

/-- A query on the sample table with an empty predicate. -/
def sampleQuery : Query := ⟨sampleTable, []⟩

/-- A payload with every member zero. -/
def zeroPayload : PrimitiveValue.Payload := ⟨false, 0, 0, 0, 0, []⟩

/-! ## Theorems: link lists -/

/-- On a list of size above the index, the storage insert is inside its
contract. -/
theorem LinkView.insert_of_lt (lv : LinkView) (i row : Nat) (h : i < lv.size) :
    lv.insert i row = some ⟨lv.rows.take i ++ row :: lv.rows.drop i⟩ := by
  have h1 : i ≤ lv.rows.length := Nat.le_of_lt h
  simp [LinkView.insert, h1]

/-- On a list of size above the index, the storage read is inside its
contract. -/
theorem LinkView.get_of_lt (lv : LinkView) (i : Nat) (h : i < lv.size) :
    lv.get i = some (lv.rows.get ⟨i, h⟩) := by
  simp [LinkView.get, List.get?_eq_get h]

/-- On a list of size above the index, the storage removal is inside its
contract. -/
theorem LinkView.do_remove_of_lt (lv : LinkView) (i : Nat) (h : i < lv.size) :
    lv.do_remove i = some ⟨lv.rows.eraseIdx i⟩ := by
  have h1 : i < lv.rows.length := h
  simp [LinkView.do_remove, h1]

/-- What `linklist_insert` does below the size. -/
theorem linklist_insert_of_lt (lv : LinkView) (i row : Nat) (h : i < lv.size) :
    linklist_insert lv i row =
      ⟨.returned (), ⟨lv.rows.take i ++ row :: lv.rows.drop i⟩,
        [⟨lv, .size⟩, ⟨lv, .insert i row⟩]⟩ := by
  have h1 : ¬ i ≥ lv.size := Nat.not_le.mpr h
  simp only [linklist_insert, h1, if_false, LinkView.insert_of_lt lv i row h]

/-- What `linklist_insert` does at or above the size. -/
theorem linklist_insert_of_ge (lv : LinkView) (i row : Nat) (h : lv.size ≤ i) :
    linklist_insert lv i row =
      ⟨.thrown (.IndexOutOfRangeException "Insert into RealmList" i lv.size), lv,
        [⟨lv, .size⟩]⟩ := by
  have h1 : i ≥ lv.size := h
  simp only [linklist_insert, h1, if_true]

/-- What `linklist_get` does below the size. -/
theorem linklist_get_of_lt (lv : LinkView) (i : Nat) (h : i < lv.size) :
    linklist_get lv i =
      ⟨.returned ⟨lv.rows.get ⟨i, h⟩⟩, lv, [⟨lv, .size⟩, ⟨lv, .get i⟩]⟩ := by
  have h1 : ¬ i ≥ lv.size := Nat.not_le.mpr h
  simp only [linklist_get, h1, if_false, LinkView.get_of_lt lv i h]

/-- What `linklist_get` does at or above the size. -/
theorem linklist_get_of_ge (lv : LinkView) (i : Nat) (h : lv.size ≤ i) :
    linklist_get lv i =
      ⟨.thrown (.IndexOutOfRangeException "Get from RealmList" i lv.size), lv,
        [⟨lv, .size⟩]⟩ := by
  have h1 : i ≥ lv.size := h
  simp only [linklist_get, h1, if_true]

/-- What `linklist_erase` does below the size. -/
theorem linklist_erase_of_lt (lv : LinkView) (i : Nat) (h : i < lv.size) :
    linklist_erase lv i =
      ⟨.returned (), ⟨lv.rows.eraseIdx i⟩, [⟨lv, .size⟩, ⟨lv, .do_remove i⟩]⟩ := by
  have h1 : ¬ i ≥ lv.size := Nat.not_le.mpr h
  simp only [linklist_erase, h1, if_false, LinkView.do_remove_of_lt lv i h]

/-- What `linklist_erase` does at or above the size. -/
theorem linklist_erase_of_ge (lv : LinkView) (i : Nat) (h : lv.size ≤ i) :
    linklist_erase lv i =
      ⟨.thrown (.IndexOutOfRangeException "Erase item in RealmList" i lv.size), lv,
        [⟨lv, .size⟩]⟩ := by
  have h1 : i ≥ lv.size := h
  simp only [linklist_erase, h1, if_true]

/-- C1: on a list of size `n`, each of `linklist_insert`, `linklist_get` and
`linklist_erase` fails exactly when the index is at least `n` (and succeeds
exactly when it is below `n`), and the error it fails with is the
index-out-of-range exception carrying the requested index and `n`; so an
insert at index `n` fails, and so does every insert into an empty list. -/
theorem linklist_index_out_of_range_iff (lv : LinkView) (i row : Nat) :
    (((linklist_insert lv i row).outcome.fails ↔ i ≥ lv.size) ∧
      ((linklist_insert lv i row).outcome.succeeds ↔ i < lv.size) ∧
      (linklist_insert lv i row).outcome.error? =
        if i ≥ lv.size then
          some (.IndexOutOfRangeException "Insert into RealmList" i lv.size)
        else none) ∧
    (((linklist_get lv i).outcome.fails ↔ i ≥ lv.size) ∧
      ((linklist_get lv i).outcome.succeeds ↔ i < lv.size) ∧
      (linklist_get lv i).outcome.error? =
        if i ≥ lv.size then
          some (.IndexOutOfRangeException "Get from RealmList" i lv.size)
        else none) ∧
    (((linklist_erase lv i).outcome.fails ↔ i ≥ lv.size) ∧
      ((linklist_erase lv i).outcome.succeeds ↔ i < lv.size) ∧
      (linklist_erase lv i).outcome.error? =
        if i ≥ lv.size then
          some (.IndexOutOfRangeException "Erase item in RealmList" i lv.size)
        else none) ∧
    (linklist_insert lv lv.size row).outcome.fails ∧
    (linklist_insert ⟨[]⟩ i row).outcome.fails := by
  have hn : (linklist_insert lv lv.size row).outcome.fails := by
    rw [linklist_insert_of_ge lv lv.size row (Nat.le_refl _)]
    exact ⟨_, rfl⟩
  have he : (linklist_insert ⟨[]⟩ i row).outcome.fails := by
    rw [linklist_insert_of_ge ⟨[]⟩ i row (Nat.zero_le _)]
    exact ⟨_, rfl⟩
  refine ⟨?_, ?_, ?_, hn, he⟩ <;> rcases Nat.lt_or_ge i lv.size with h | h
  · have h1 : ¬ i ≥ lv.size := Nat.not_le.mpr h
    rw [linklist_insert_of_lt lv i row h]
    simp [Outcome.fails, Outcome.succeeds, Outcome.error?, h, h1]
  · have h1 : ¬ i < lv.size := Nat.not_lt.mpr h
    rw [linklist_insert_of_ge lv i row h]
    simp [Outcome.fails, Outcome.succeeds, Outcome.error?, h, h1]
  · have h1 : ¬ i ≥ lv.size := Nat.not_le.mpr h
    rw [linklist_get_of_lt lv i h]
    simp [Outcome.fails, Outcome.succeeds, Outcome.error?, h, h1]
  · have h1 : ¬ i < lv.size := Nat.not_lt.mpr h
    rw [linklist_get_of_ge lv i h]
    simp [Outcome.fails, Outcome.succeeds, Outcome.error?, h, h1]
  · have h1 : ¬ i ≥ lv.size := Nat.not_le.mpr h
    rw [linklist_erase_of_lt lv i h]
    simp [Outcome.fails, Outcome.succeeds, Outcome.error?, h, h1]
  · have h1 : ¬ i < lv.size := Nat.not_lt.mpr h
    rw [linklist_erase_of_ge lv i h]
    simp [Outcome.fails, Outcome.succeeds, Outcome.error?, h, h1]

/-- C2: when the index is not below the size, `linklist_insert`,
`linklist_get` and `linklist_erase` fail and leave the list as it was: the
sequence of row references and the size after the call are those before it. -/
theorem linklist_failure_keeps_list (lv : LinkView) (i row : Nat) (h : ¬ i < lv.size) :
    ((linklist_insert lv i row).outcome.fails ∧
      (linklist_insert lv i row).view.rows = lv.rows ∧
      (linklist_insert lv i row).view.size = lv.size) ∧
    ((linklist_get lv i).outcome.fails ∧
      (linklist_get lv i).view.rows = lv.rows ∧
      (linklist_get lv i).view.size = lv.size) ∧
    ((linklist_erase lv i).outcome.fails ∧
      (linklist_erase lv i).view.rows = lv.rows ∧
      (linklist_erase lv i).view.size = lv.size) := by
  have h1 : lv.size ≤ i := Nat.not_lt.mp h
  rw [linklist_insert_of_ge lv i row h1, linklist_get_of_ge lv i h1,
    linklist_erase_of_ge lv i h1]
  simp [Outcome.fails]

/-- Witness of C2: inserting, reading and erasing at index 2 of the two-entry
list `[4, 5]`. -/
theorem linklist_failure_keeps_list_witness :
    (¬ 2 < (LinkView.mk [4, 5]).size) ∧
    (linklist_insert ⟨[4, 5]⟩ 2 9).view.rows = [4, 5] ∧
    (linklist_get ⟨[4, 5]⟩ 2).view.rows = [4, 5] ∧
    (linklist_erase ⟨[4, 5]⟩ 2).view.rows = [4, 5] :=
  have h := linklist_failure_keeps_list ⟨[4, 5]⟩ 2 9 (by decide)
  ⟨by decide, h.1.2.1, h.2.1.2.1, h.2.2.2.1⟩

/-- Counterexample to C3: on the one-entry list `[7]`, `linklist_find` with
start position 5 invokes the storage `find` primitive with position 5, which
is outside the list, without any check. -/
theorem linklist_find_invokes_outside_list :
    (linklist_find ⟨[7]⟩ 7 5).calls = [⟨⟨[7]⟩, .find 7 5⟩] ∧
    (Invocation.mk ⟨[7]⟩ (.find 7 5)).call.position? = some 5 ∧
    (Invocation.mk ⟨[7]⟩ (.find 7 5)).view.size = 1 ∧
    ¬ (Invocation.mk ⟨[7]⟩ (.find 7 5)).inList := by
  decide

/-- C3, amended: `linklist_insert`, `linklist_get` and `linklist_erase` read
the size first, invoke nothing else when the index is not below it, and invoke
the storage insert, get and remove primitives only with a position inside the
list; `linklist_find` checks nothing and invokes the storage find primitive
with the start position it was given. -/
theorem linklist_checked_invocations (lv : LinkView) (i row start : Nat) :
    ((∀ inv ∈ (linklist_insert lv i row).calls, inv.inList) ∧
      (linklist_insert lv i row).calls =
        if i ≥ lv.size then [⟨lv, .size⟩] else [⟨lv, .size⟩, ⟨lv, .insert i row⟩]) ∧
    ((∀ inv ∈ (linklist_get lv i).calls, inv.inList) ∧
      (linklist_get lv i).calls =
        if i ≥ lv.size then [⟨lv, .size⟩] else [⟨lv, .size⟩, ⟨lv, .get i⟩]) ∧
    ((∀ inv ∈ (linklist_erase lv i).calls, inv.inList) ∧
      (linklist_erase lv i).calls =
        if i ≥ lv.size then [⟨lv, .size⟩] else [⟨lv, .size⟩, ⟨lv, .do_remove i⟩]) ∧
    (linklist_find lv row start).calls = [⟨lv, .find row start⟩] := by
  rcases Nat.lt_or_ge i lv.size with h | h
  · have h1 : ¬ i ≥ lv.size := Nat.not_le.mpr h
    rw [linklist_insert_of_lt lv i row h, linklist_get_of_lt lv i h,
      linklist_erase_of_lt lv i h]
    simp [Invocation.inList, StorageCall.position?, h, h1, linklist_find]
  · rw [linklist_insert_of_ge lv i row h, linklist_get_of_ge lv i h,
      linklist_erase_of_ge lv i h]
    simp [Invocation.inList, StorageCall.position?, h, linklist_find]

/-- The outcome of `linklist_get` in terms of the stored sequence. -/
theorem linklist_get_outcome (lv : LinkView) (j : Nat) :
    (linklist_get lv j).outcome =
      match lv.rows[j]? with
      | some r => .returned ⟨r⟩
      | none => .thrown (.IndexOutOfRangeException "Get from RealmList" j lv.size) := by
  rcases Nat.lt_or_ge j lv.size with h | h
  · have h2 : j < lv.rows.length := h
    rw [linklist_get_of_lt lv j h]
    simp [List.getElem?_eq_getElem h2]
  · have h2 : lv.rows.length ≤ j := h
    rw [linklist_get_of_ge lv j h]
    simp [List.getElem?_eq_none h2]

/-- Entries of a sequence after an insertion before position `i`. -/
theorem getElem?_take_cons_drop (l : List Nat) (i x j : Nat) (h : i ≤ l.length) :
    (l.take i ++ x :: l.drop i)[j]? =
      if j < i then l[j]? else if j = i then some x else l[j - 1]? := by
  have hlen : (l.take i).length = i := by simp [List.length_take, h]
  by_cases h1 : j < i
  · rw [List.getElem?_append_left (by omega)]
    simp [h1, List.getElem?_take]
  · rw [List.getElem?_append_right (by omega), hlen]
    by_cases h2 : j = i
    · subst h2; simp
    · obtain ⟨k, hk⟩ : ∃ k, j - i = k + 1 := ⟨j - i - 1, by omega⟩
      have h3 : i + k = j - 1 := by omega
      simp [h1, h2, hk, List.getElem?_drop, h3]

/-- C9: on every list, of size `n`, `linklist_add` succeeds, makes the size
`n + 1` and `linklist_get` at `n` then returns the added reference;
`linklist_insert` at an index `i < n` succeeds, makes the size `n + 1`,
`linklist_get` at `i` then returns the inserted reference, the entries before
`i` are unchanged and every entry formerly at `j ≥ i` is now at `j + 1`. -/
theorem linklist_add_insert_get (lv : LinkView) (x i : Nat) :
    ((linklist_add lv x).outcome = .returned () ∧
      (linklist_size (linklist_add lv x).view).outcome = .returned (lv.size + 1) ∧
      (linklist_get (linklist_add lv x).view lv.size).outcome = .returned ⟨x⟩) ∧
    (i < lv.size →
      (linklist_insert lv i x).outcome = .returned () ∧
      (linklist_size (linklist_insert lv i x).view).outcome = .returned (lv.size + 1) ∧
      (linklist_get (linklist_insert lv i x).view i).outcome = .returned ⟨x⟩ ∧
      (∀ j, j < i → ∃ r, (linklist_get lv j).outcome = .returned r ∧
        (linklist_get (linklist_insert lv i x).view j).outcome = .returned r) ∧
      (∀ j, i ≤ j → j < lv.size → ∃ r, (linklist_get lv j).outcome = .returned r ∧
        (linklist_get (linklist_insert lv i x).view (j + 1)).outcome = .returned r)) := by
  have hlen : lv.rows.length = lv.size := rfl
  refine ⟨⟨rfl, ?_, ?_⟩, ?_⟩
  · simp [linklist_size, linklist_add, LinkView.add, LinkView.size]
  · rw [linklist_get_outcome]
    simp [linklist_add, LinkView.add, LinkView.size]
  · intro h
    have hi : i ≤ lv.rows.length := Nat.le_of_lt h
    rw [linklist_insert_of_lt lv i x h]
    refine ⟨rfl, ?_, ?_, ?_, ?_⟩
    · simp only [linklist_size, LinkView.size, List.length_append, List.length_cons,
        List.length_take, List.length_drop]
      congr 1
      omega
    · rw [linklist_get_outcome]
      simp [getElem?_take_cons_drop lv.rows i x i hi]
    · intro j hj
      have hj2 : j < lv.rows.length := by omega
      refine ⟨⟨lv.rows[j]⟩, ?_, ?_⟩
      · rw [linklist_get_outcome]; simp [List.getElem?_eq_getElem hj2]
      · rw [linklist_get_outcome]
        simp [getElem?_take_cons_drop lv.rows i x j hi, hj, List.getElem?_eq_getElem hj2]
    · intro j hij hj
      have hj2 : j < lv.rows.length := hj
      have h1 : ¬ j + 1 < i := by omega
      have h2 : ¬ j + 1 = i := by omega
      refine ⟨⟨lv.rows[j]⟩, ?_, ?_⟩
      · rw [linklist_get_outcome]; simp [List.getElem?_eq_getElem hj2]
      · rw [linklist_get_outcome]
        simp [getElem?_take_cons_drop lv.rows i x (j + 1) hi, h1, h2,
          List.getElem?_eq_getElem hj2]

/-- Instances of C9: adding 9 to the empty list and to `[4, 5, 6]`, and
inserting 9 at index 1 of `[4, 5, 6]`. -/
theorem linklist_add_insert_get_witness :
    (linklist_size (linklist_add ⟨[]⟩ 9).view).outcome = .returned (0 + 1) ∧
    (linklist_get (linklist_add ⟨[]⟩ 9).view 0).outcome = .returned ⟨9⟩ ∧
    (linklist_get (linklist_add ⟨[4, 5, 6]⟩ 9).view 3).outcome = .returned ⟨9⟩ ∧
    (linklist_get (linklist_insert ⟨[4, 5, 6]⟩ 1 9).view 1).outcome = .returned ⟨9⟩ :=
  have h0 := linklist_add_insert_get ⟨[]⟩ 9 0
  have h := linklist_add_insert_get ⟨[4, 5, 6]⟩ 9 1
  ⟨h0.1.2.1, h0.1.2.2, h.1.2.2, (h.2 (by decide)).2.2.1⟩

/-- C10: on a list of size `n`, `linklist_erase` at an index `i < n` succeeds
and yields the list with exactly the entry at `i` removed: the size becomes
`n - 1`, the entries before `i` are unchanged and every entry formerly at
`j > i` is now at `j - 1`. -/
theorem linklist_erase_removes_entry (lv : LinkView) (i : Nat) (h : i < lv.size) :
    (linklist_erase lv i).outcome = .returned () ∧
    (linklist_erase lv i).view.rows = lv.rows.take i ++ lv.rows.drop (i + 1) ∧
    (linklist_size (linklist_erase lv i).view).outcome = .returned (lv.size - 1) ∧
    (∀ j, j < i → ∃ r, (linklist_get lv j).outcome = .returned r ∧
      (linklist_get (linklist_erase lv i).view j).outcome = .returned r) ∧
    (∀ j, i < j → j < lv.size → ∃ r, (linklist_get lv j).outcome = .returned r ∧
      (linklist_get (linklist_erase lv i).view (j - 1)).outcome = .returned r) := by
  have hi : i < lv.rows.length := h
  rw [linklist_erase_of_lt lv i h]
  refine ⟨rfl, ?_, ?_, ?_, ?_⟩
  · exact List.eraseIdx_eq_take_drop_succ lv.rows i
  · simp [linklist_size, LinkView.size, List.length_eraseIdx, hi]
  · intro j hj
    have hj2 : j < lv.rows.length := by omega
    refine ⟨⟨lv.rows[j]⟩, ?_, ?_⟩
    · rw [linklist_get_outcome]; simp [List.getElem?_eq_getElem hj2]
    · rw [linklist_get_outcome]
      simp [List.getElem?_eraseIdx, hj, List.getElem?_eq_getElem hj2]
  · intro j hij hj
    have hj2 : j < lv.rows.length := hj
    have h1 : ¬ j - 1 < i := by omega
    have h2 : j - 1 + 1 = j := by omega
    refine ⟨⟨lv.rows[j]⟩, ?_, ?_⟩
    · rw [linklist_get_outcome]; simp [List.getElem?_eq_getElem hj2]
    · rw [linklist_get_outcome]
      simp [List.getElem?_eraseIdx, h1, h2, List.getElem?_eq_getElem hj2]

/-- Witness of C10: erasing index 1 of the list `[4, 5, 6]`. -/
theorem linklist_erase_removes_entry_witness :
    1 < (LinkView.mk [4, 5, 6]).size ∧
    (linklist_erase ⟨[4, 5, 6]⟩ 1).view.rows = [4] ++ [6] :=
  have h := linklist_erase_removes_entry ⟨[4, 5, 6]⟩ 1 (by decide)
  ⟨by decide, h.2.1⟩

/-! ## Theorems: queries -/

/-- A property index inside the persisted properties of the object schema of
the table resolves to the column key of that property. -/
theorem get_key_for_prop_of_lt (query : Query) (realm : SharedRealm) (i : Nat)
    (os : ObjectSchema)
    (hs : realm.find (object_type_for_table_name query.get_table.get_name) = some os)
    (hi : i < os.persisted_properties.length) :
    get_key_for_prop query realm i = os.persisted_properties[i].column_key := by
  simp [get_key_for_prop, hs, List.getElem?_eq_getElem hi]

/-- A terminated outcome is not a failure of any kind. -/
theorem Outcome.terminated_not_failsWith (k : ErrorKind) :
    ¬ (Outcome.terminated : Outcome Unit).failsWith k := by
  rintro ⟨e, he, _⟩
  cases he

/-- A thrown runtime error is a usage error. -/
theorem Outcome.runtime_error_failsWith_usage (what : String) :
    (Outcome.thrown (.runtime_error what) : Outcome Unit).failsWith .usage :=
  ⟨_, rfl, rfl⟩

/-- C4: for every query, every property index, resolving or not, and every
present value whose tag is the boolean kind, with or without the nullable
flag, each of the four ordering comparators fails with a usage error and
leaves the query as it was, whatever the boolean payload. -/
theorem query_primitive_ordering_bool_fails (query : Query) (realm : SharedRealm) (i : Nat)
    (primitive : PrimitiveValue)
    (hv : primitive.has_value = true)
    (ht : primitive.type = PropertyType.Bool
      ∨ primitive.type = PropertyType.Bool ||| PropertyType.Nullable) :
    ((query_primitive_less query realm i primitive).outcome.failsWith .usage ∧
      (query_primitive_less query realm i primitive).query = query) ∧
    ((query_primitive_less_equal query realm i primitive).outcome.failsWith .usage ∧
      (query_primitive_less_equal query realm i primitive).query = query) ∧
    ((query_primitive_greater query realm i primitive).outcome.failsWith .usage ∧
      (query_primitive_greater query realm i primitive).query = query) ∧
    ((query_primitive_greater_equal query realm i primitive).outcome.failsWith .usage ∧
      (query_primitive_greater_equal query realm i primitive).query = query) := by
  simp only [query_primitive_less, query_primitive_less_equal, query_primitive_greater,
    query_primitive_greater_equal, hv, ht, if_true, Bool.not_true, Bool.false_eq_true,
    if_false]
  simp [Outcome.failsWith, NativeException.kind]

/-- Witness of C4: the ordering comparators on the sample realm with a present
boolean value, `true` at the resolving property index 0 and `false`, with the
nullable flag, at property index 2, which does not resolve. -/
theorem query_primitive_ordering_bool_fails_witness :
    (query_primitive_less sampleQuery sampleRealm 0
        ⟨PropertyType.Bool, true, ⟨true, 0, 0, 0, 0, []⟩⟩).outcome.failsWith .usage ∧
    (query_primitive_greater_equal sampleQuery sampleRealm 2
        ⟨PropertyType.Bool ||| PropertyType.Nullable, true, zeroPayload⟩).outcome.failsWith
      .usage :=
  have h0 := query_primitive_ordering_bool_fails sampleQuery sampleRealm 0
    ⟨PropertyType.Bool, true, ⟨true, 0, 0, 0, 0, []⟩⟩ rfl (Or.inl rfl)
  have h2 := query_primitive_ordering_bool_fails sampleQuery sampleRealm 2
    ⟨PropertyType.Bool ||| PropertyType.Nullable, true, zeroPayload⟩ rfl (Or.inr rfl)
  ⟨h0.1.1, h2.2.2.2.1⟩

/-- C5: for every query, every property index, valid or not, and every absent
value, whatever its tag, each of the six primitive comparators fails with a
usage error and leaves the query as it was: no leaf is appended, so the absent
value is not turned into a comparison with null. -/
theorem query_primitive_absent_fails (query : Query) (realm : SharedRealm) (i : Nat)
    (primitive : PrimitiveValue) (hv : primitive.has_value = false) :
    ((query_primitive_equal query realm i primitive).outcome.failsWith .usage ∧
      (query_primitive_equal query realm i primitive).query = query) ∧
    ((query_primitive_not_equal query realm i primitive).outcome.failsWith .usage ∧
      (query_primitive_not_equal query realm i primitive).query = query) ∧
    ((query_primitive_less query realm i primitive).outcome.failsWith .usage ∧
      (query_primitive_less query realm i primitive).query = query) ∧
    ((query_primitive_less_equal query realm i primitive).outcome.failsWith .usage ∧
      (query_primitive_less_equal query realm i primitive).query = query) ∧
    ((query_primitive_greater query realm i primitive).outcome.failsWith .usage ∧
      (query_primitive_greater query realm i primitive).query = query) ∧
    ((query_primitive_greater_equal query realm i primitive).outcome.failsWith .usage ∧
      (query_primitive_greater_equal query realm i primitive).query = query) := by
  simp only [query_primitive_equal, query_primitive_not_equal, query_primitive_less,
    query_primitive_less_equal, query_primitive_greater, query_primitive_greater_equal, hv,
    Bool.not_false, if_true]
  simp [Outcome.failsWith, NativeException.kind]

/-- Witness of C5: an absent integer value at the unresolvable property index
5 of the sample realm. -/
theorem query_primitive_absent_fails_witness :
    (query_primitive_equal sampleQuery sampleRealm 5
        ⟨PropertyType.Int, false, zeroPayload⟩).outcome.failsWith .usage ∧
    (query_primitive_equal sampleQuery sampleRealm 5
        ⟨PropertyType.Int, false, zeroPayload⟩).query.predicate = [] :=
  have h := query_primitive_absent_fails sampleQuery sampleRealm 5
    ⟨PropertyType.Int, false, zeroPayload⟩ rfl
  ⟨h.1.1, congrArg Query.predicate h.1.2⟩

/-- C6: for every query and every property index inside the persisted
properties of the object type backing the table, `query_null_equal` (resp.
`query_null_not_equal`) succeeds and appends, after the current predicate, the
AND-combined link expression "is null" (resp. "is not null") exactly when the
type of the resolved column is the link type, and the equality (resp.
inequality) comparison against null in every other case; the leaf of the link
path is never the leaf of the scalar path. -/
theorem query_null_dispatch (query : Query) (realm : SharedRealm) (i : Nat)
    (os : ObjectSchema)
    (hs : realm.find (object_type_for_table_name query.get_table.get_name) = some os)
    (hi : i < os.persisted_properties.length) :
    ((query_null_equal query realm i).outcome = .returned () ∧
      (query_null_equal query realm i).query.predicate = query.predicate ++
        [if query.get_table.get_column_type os.persisted_properties[i].column_key
            = DataType.type_Link
          then Leaf.and_query (.is_null os.persisted_properties[i].column_key)
          else Leaf.compare .equal os.persisted_properties[i].column_key .null] ∧
      ((query_null_equal query realm i).query.predicate = query.predicate ++
          [Leaf.and_query (.is_null os.persisted_properties[i].column_key)] ↔
        query.get_table.get_column_type os.persisted_properties[i].column_key
          = DataType.type_Link) ∧
      ((query_null_equal query realm i).query.predicate = query.predicate ++
          [Leaf.compare .equal os.persisted_properties[i].column_key .null] ↔
        query.get_table.get_column_type os.persisted_properties[i].column_key
          ≠ DataType.type_Link)) ∧
    ((query_null_not_equal query realm i).outcome = .returned () ∧
      (query_null_not_equal query realm i).query.predicate = query.predicate ++
        [if query.get_table.get_column_type os.persisted_properties[i].column_key
            = DataType.type_Link
          then Leaf.and_query (.is_not_null os.persisted_properties[i].column_key)
          else Leaf.compare .not_equal os.persisted_properties[i].column_key .null] ∧
      ((query_null_not_equal query realm i).query.predicate = query.predicate ++
          [Leaf.and_query (.is_not_null os.persisted_properties[i].column_key)] ↔
        query.get_table.get_column_type os.persisted_properties[i].column_key
          = DataType.type_Link) ∧
      ((query_null_not_equal query realm i).query.predicate = query.predicate ++
          [Leaf.compare .not_equal os.persisted_properties[i].column_key .null] ↔
        query.get_table.get_column_type os.persisted_properties[i].column_key
          ≠ DataType.type_Link)) ∧
    (∀ (a b : ColKey) (op : Comparison) (e : LinkExpression),
      Leaf.and_query e ≠ Leaf.compare op a (.null) ∧
      Leaf.and_query (.is_null a) ≠ Leaf.and_query (.is_not_null b)) := by
  have hk := get_key_for_prop_of_lt query realm i os hs hi
  generalize os.persisted_properties[i].column_key = col_key at hk ⊢
  refine ⟨?_, ?_, ?_⟩
  · simp only [query_null_equal, hk]
    by_cases ht : query.get_table.get_column_type col_key = DataType.type_Link
    · simp [ht, Query.append]
    · simp [ht, Query.append]
  · simp only [query_null_not_equal, hk]
    by_cases ht : query.get_table.get_column_type col_key = DataType.type_Link
    · simp [ht, Query.append]
    · simp [ht, Query.append]
  · intro a b op e
    exact ⟨by simp, by simp⟩

/-- Witness of C6: on the sample realm, property 1 is stored in the link
column 7 and property 0 in the integer column 3. -/
theorem query_null_dispatch_witness :
    (query_null_equal sampleQuery sampleRealm 1).query.predicate =
      [] ++ [Leaf.and_query (.is_null ⟨7⟩)] ∧
    (query_null_equal sampleQuery sampleRealm 0).query.predicate =
      [] ++ [Leaf.compare .equal ⟨3⟩ .null] :=
  have h1 := query_null_dispatch sampleQuery sampleRealm 1 ⟨"Person", [⟨⟨3⟩⟩, ⟨⟨7⟩⟩]⟩
    (by decide) (by decide)
  have h0 := query_null_dispatch sampleQuery sampleRealm 0 ⟨"Person", [⟨⟨3⟩⟩, ⟨⟨7⟩⟩]⟩
    (by decide) (by decide)
  ⟨h1.1.2.2.1.mpr (by decide), h0.1.2.2.2.mpr (by decide)⟩

/-- Counterexample to C8: on the sample realm, `query_primitive_equal` at the
valid property index 0 with a present value tagged as a string reaches the
unreachable default of the switch and terminates the process; no usage error
is surfaced. -/
theorem query_primitive_equal_string_tag_terminates :
    (query_primitive_equal sampleQuery sampleRealm 0
        ⟨PropertyType.String, true, zeroPayload⟩).outcome = .terminated ∧
    ¬ (query_primitive_equal sampleQuery sampleRealm 0
        ⟨PropertyType.String, true, zeroPayload⟩).outcome.failsWith .usage := by
  have h : (query_primitive_equal sampleQuery sampleRealm 0
      ⟨PropertyType.String, true, zeroPayload⟩).outcome = .terminated := by decide
  exact ⟨h, by rw [h]; exact Outcome.terminated_not_failsWith _⟩

/-- C8, amended: for every property index inside the persisted properties of
the object type backing the table and every present value whose tag is not one
of the seven supported kinds, with or without the nullable flag, each of the
six primitive comparators reaches the unreachable default of its switch, which
terminates the process: no usage error is surfaced and no leaf is appended. -/
theorem query_primitive_unsupported_terminates (query : Query) (realm : SharedRealm) (i : Nat)
    (os : ObjectSchema) (primitive : PrimitiveValue)
    (hs : realm.find (object_type_for_table_name query.get_table.get_name) = some os)
    (hi : i < os.persisted_properties.length)
    (hv : primitive.has_value = true)
    (ht : primitive.type ∉ supported_types) :
    ((query_primitive_equal query realm i primitive).outcome = .terminated ∧
      (query_primitive_equal query realm i primitive).query = query) ∧
    ((query_primitive_not_equal query realm i primitive).outcome = .terminated ∧
      (query_primitive_not_equal query realm i primitive).query = query) ∧
    ((query_primitive_less query realm i primitive).outcome = .terminated ∧
      (query_primitive_less query realm i primitive).query = query) ∧
    ((query_primitive_less_equal query realm i primitive).outcome = .terminated ∧
      (query_primitive_less_equal query realm i primitive).query = query) ∧
    ((query_primitive_greater query realm i primitive).outcome = .terminated ∧
      (query_primitive_greater query realm i primitive).query = query) ∧
    ((query_primitive_greater_equal query realm i primitive).outcome = .terminated ∧
      (query_primitive_greater_equal query realm i primitive).query = query) := by
  have hk := get_key_for_prop_of_lt query realm i os hs hi
  simp only [supported_types, List.mem_cons, List.mem_singleton, List.not_mem_nil, or_false,
    not_or] at ht
  obtain ⟨b1, b2, i1, i2, f1, f2, d1, d2, t1, t2, c1, c2, o1, o2⟩ := ht
  simp only [query_primitive_equal, query_primitive_not_equal, query_primitive_less,
    query_primitive_less_equal, query_primitive_greater, query_primitive_greater_equal, hv, hk,
    b1, b2, i1, i2, f1, f2, d1, d2, t1, t2, c1, c2, o1, o2, or_self, if_false, Bool.not_true,
    Bool.false_eq_true, and_self]

/-- Witness of C8, amended: the six comparators at property index 0 of the
sample realm with a present value tagged as a string. -/
theorem query_primitive_unsupported_terminates_witness :
    (query_primitive_equal sampleQuery sampleRealm 0
        ⟨PropertyType.String, true, zeroPayload⟩).outcome = .terminated ∧
    (query_primitive_less sampleQuery sampleRealm 0
        ⟨PropertyType.String, true, zeroPayload⟩).outcome = .terminated :=
  have h := query_primitive_unsupported_terminates sampleQuery sampleRealm 0
    ⟨"Person", [⟨⟨3⟩⟩, ⟨⟨7⟩⟩]⟩ ⟨PropertyType.String, true, zeroPayload⟩
    (by decide) (by decide) rfl (by decide)
  ⟨h.1.1, h.2.2.1.1⟩

/-- What the forward scan returns: the position of the first entry at or after
`start` that equals `row_ndx`, or `not_found` when there is none. -/
theorem LinkView.findFrom_spec (row_ndx start : Nat) (rows : List Nat) (pos : Nat) :
    (∃ k, LinkView.findFrom row_ndx start pos rows = pos + k ∧ start ≤ pos + k ∧
        rows[k]? = some row_ndx ∧
        ∀ j, j < k → start ≤ pos + j → rows[j]? ≠ some row_ndx) ∨
    (LinkView.findFrom row_ndx start pos rows = not_found ∧
        ∀ j, start ≤ pos + j → rows[j]? ≠ some row_ndx) := by
  induction rows generalizing pos with
  | nil =>
    right
    simp [LinkView.findFrom]
  | cons r rest ih =>
    by_cases hc : start ≤ pos ∧ r = row_ndx
    · left
      refine ⟨0, ?_, ?_, ?_, ?_⟩
      · simp [LinkView.findFrom, hc]
      · simpa using hc.1
      · simp [hc.2]
      · intro j hj
        omega
    · have hstep : LinkView.findFrom row_ndx start pos (r :: rest) =
          LinkView.findFrom row_ndx start (pos + 1) rest := by
        simp only [LinkView.findFrom, hc, if_false]
      have hhead : start ≤ pos → (r :: rest)[0]? ≠ some row_ndx := by
        intro h0
        simp only [List.getElem?_cons_zero, ne_eq, Option.some.injEq]
        exact fun h => hc ⟨h0, h⟩
      rcases ih (pos + 1) with ⟨k, hk, hs, hx, hmin⟩ | ⟨hk, hnone⟩
      · left
        refine ⟨k + 1, ?_, ?_, ?_, ?_⟩
        · rw [hstep, hk]; omega
        · omega
        · simpa using hx
        · intro j hj hsj
          cases j with
          | zero => exact hhead (by simpa using hsj)
          | succ j =>
            have := hmin j (by omega) (by omega)
            simpa using this
      · right
        refine ⟨by rw [hstep, hk], ?_⟩
        intro j hsj
        cases j with
        | zero => exact hhead (by simpa using hsj)
        | succ j =>
          have := hnone j (by omega)
          simpa using this

/-- C11: for every list, row reference `x` and start position `s`,
`linklist_find` returns the smallest index at or after `s` whose entry is `x`,
or the not-found sentinel when no entry at or after `s` is `x` (in particular
when `s` is at or past the end); after `linklist_clear` the size is zero and
`linklist_find` returns the sentinel for every `x` and `s`. -/
theorem linklist_find_first_from (lv : LinkView) (x s : Nat) :
    ((∃ i, (linklist_find lv x s).outcome = .returned i ∧ s ≤ i ∧ i < lv.size ∧
          (linklist_get lv i).outcome = .returned ⟨x⟩ ∧
          ∀ j, s ≤ j → j < i → (linklist_get lv j).outcome ≠ .returned ⟨x⟩) ∨
      ((linklist_find lv x s).outcome = .returned not_found ∧
          ∀ j, s ≤ j → (linklist_get lv j).outcome ≠ .returned ⟨x⟩)) ∧
    (lv.size ≤ s → (linklist_find lv x s).outcome = .returned not_found) ∧
    (linklist_clear lv).outcome = .returned () ∧
    (linklist_size (linklist_clear lv).view).outcome = .returned 0 ∧
    (linklist_find (linklist_clear lv).view x s).outcome = .returned not_found := by
  have hget : ∀ j, (linklist_get lv j).outcome = .returned ⟨x⟩ ↔ lv.rows[j]? = some x := by
    intro j
    rw [linklist_get_outcome]
    cases hj : lv.rows[j]? <;> simp
  have hmain : (∃ i, (linklist_find lv x s).outcome = .returned i ∧ s ≤ i ∧ i < lv.size ∧
          (linklist_get lv i).outcome = .returned ⟨x⟩ ∧
          ∀ j, s ≤ j → j < i → (linklist_get lv j).outcome ≠ .returned ⟨x⟩) ∨
      ((linklist_find lv x s).outcome = .returned not_found ∧
          ∀ j, s ≤ j → (linklist_get lv j).outcome ≠ .returned ⟨x⟩) := by
    rcases LinkView.findFrom_spec x s lv.rows 0 with ⟨k, hk, hs, hx, hmin⟩ | ⟨hk, hnone⟩
    · left
      have hlt : k < lv.rows.length := by
        by_contra hge
        rw [List.getElem?_eq_none (Nat.not_lt.mp hge)] at hx
        cases hx
      refine ⟨k, ?_, by omega, hlt, (hget k).mpr hx, ?_⟩
      · simp [linklist_find, LinkView.find, hk]
      · intro j hsj hjk hj
        exact hmin j hjk (by omega) ((hget j).mp hj)
    · right
      refine ⟨by simp [linklist_find, LinkView.find, hk], ?_⟩
      intro j hsj hj
      exact hnone j (by omega) ((hget j).mp hj)
  refine ⟨hmain, ?_, rfl, rfl, rfl⟩
  intro hs
  rcases hmain with ⟨i, _, hsi, hi, _⟩ | ⟨h, _⟩
  · omega
  · exact h

/-- C12: for every property index inside the persisted properties of the
object type backing the table and every present value tagged with one of the
seven supported kinds, with or without the nullable flag, `query_primitive_equal`
and `query_primitive_not_equal` append exactly one leaf, of their operator, on
the resolved column, comparing against the payload of the matching kind; each
ordering comparator does the same for the six kinds that are not boolean and
appends nothing for the boolean kind, which it refuses with a usage error. -/
theorem query_primitive_dispatch (query : Query) (realm : SharedRealm) (i : Nat)
    (os : ObjectSchema) (primitive : PrimitiveValue) (kind : PrimitiveKind)
    (hs : realm.find (object_type_for_table_name query.get_table.get_name) = some os)
    (hi : i < os.persisted_properties.length)
    (hv : primitive.has_value = true)
    (ht : primitive.type = kind.tag ∨ primitive.type = kind.tag ||| PropertyType.Nullable) :
    (query_primitive_equal query realm i primitive).appends query
      (.compare .equal os.persisted_properties[i].column_key (kind.payload primitive)) ∧
    (query_primitive_not_equal query realm i primitive).appends query
      (.compare .not_equal os.persisted_properties[i].column_key (kind.payload primitive)) ∧
    (if kind = .bool then
      (query_primitive_less query realm i primitive).outcome.failsWith .usage ∧
        (query_primitive_less query realm i primitive).query = query
    else
      (query_primitive_less query realm i primitive).appends query
        (.compare .less os.persisted_properties[i].column_key (kind.payload primitive))) ∧
    (if kind = .bool then
      (query_primitive_less_equal query realm i primitive).outcome.failsWith .usage ∧
        (query_primitive_less_equal query realm i primitive).query = query
    else
      (query_primitive_less_equal query realm i primitive).appends query
        (.compare .less_equal os.persisted_properties[i].column_key (kind.payload primitive))) ∧
    (if kind = .bool then
      (query_primitive_greater query realm i primitive).outcome.failsWith .usage ∧
        (query_primitive_greater query realm i primitive).query = query
    else
      (query_primitive_greater query realm i primitive).appends query
        (.compare .greater os.persisted_properties[i].column_key (kind.payload primitive))) ∧
    (if kind = .bool then
      (query_primitive_greater_equal query realm i primitive).outcome.failsWith .usage ∧
        (query_primitive_greater_equal query realm i primitive).query = query
    else
      (query_primitive_greater_equal query realm i primitive).appends query
        (.compare .greater_equal os.persisted_properties[i].column_key
          (kind.payload primitive))) := by
  have hk := get_key_for_prop_of_lt query realm i os hs hi
  generalize os.persisted_properties[i].column_key = col_key at hk ⊢
  cases kind <;> rcases ht with ht | ht <;>
    simp [query_primitive_equal, query_primitive_not_equal, query_primitive_less,
      query_primitive_less_equal, query_primitive_greater, query_primitive_greater_equal,
      hv, hk, ht, PrimitiveKind.tag, PrimitiveKind.payload, QueryRun.appends, Query.append,
      Outcome.failsWith, NativeException.kind, PropertyType.Bool, PropertyType.Int,
      PropertyType.Float, PropertyType.Double, PropertyType.Date, PropertyType.Decimal,
      PropertyType.ObjectId, PropertyType.Nullable]

/-- Witness of C12: the comparators at property index 0 of the sample realm,
stored in column 3, with a present nullable date of 5 ticks. -/
theorem query_primitive_dispatch_witness :
    (query_primitive_equal sampleQuery sampleRealm 0
        ⟨PropertyType.Date ||| PropertyType.Nullable, true, ⟨false, 5, 0, 0, 0, []⟩⟩).appends
      sampleQuery (.compare .equal ⟨3⟩ (.timestamp (from_ticks 5))) ∧
    (query_primitive_less_equal sampleQuery sampleRealm 0
        ⟨PropertyType.Date ||| PropertyType.Nullable, true, ⟨false, 5, 0, 0, 0, []⟩⟩).appends
      sampleQuery (.compare .less_equal ⟨3⟩ (.timestamp (from_ticks 5))) :=
  have h := query_primitive_dispatch sampleQuery sampleRealm 0
    ⟨"Person", [⟨⟨3⟩⟩, ⟨⟨7⟩⟩]⟩
    ⟨PropertyType.Date ||| PropertyType.Nullable, true, ⟨false, 5, 0, 0, 0, []⟩⟩ .date
    (by decide) (by decide) rfl (Or.inr rfl)
  ⟨h.1, h.2.2.2.1⟩

end Realm
